import Mathlib

/-!
Verification of the RRG-Controller C API (directory src/c_api): the gas flow
regulator driver (src/rrg/rrg.c) and the relay driver (src/relay/relay.c),
both speaking MODBUS-RTU through the libmodbus transport library.

The transport library is external, so it is modelled as an oracle (structure
Modbus below) fixing the outcome of each primitive. Every C function becomes
a Lean function from the oracle and its C arguments to its return code, the
value it stores in the process-wide error variable, the new contents of its
out-parameters, and the list of transport calls it performed, in order.
Pointers that may be NULL become Option values; machine integers become Int
with explicit wrapping where the width matters; C floats are modelled as
exact rationals.
-/

namespace RRGController

/- Error and status codes, from include/rrg/rrg_errors.h. -/

def RRG_OK : Int := 0

def RRG_ERR : Int := -1

def ERROR_RRG_FAILED_CONNECT : Int := -1001

def ERROR_RRG_FAILED_CREATE_CONTEXT : Int := -1002

def ERROR_RRG_FAILED_SET_SLAVE : Int := -1003

def ERROR_RRG_FAILED_SET_TIMEOUT : Int := -1004

def ERROR_RRG_FAILED_READ_REGISTER : Int := -1005

def ERROR_RRG_FAILED_WRITE_REGISTER : Int := -1006

def ERROR_RRG_INVALID_PARAMETER : Int := -1007

/- Error and status codes, from include/relay/relay_errors.h. -/

def RELAY_OK : Int := 0

def RELAY_ERR : Int := -1

def ERROR_RELAY_FAILED_CONNECT : Int := -6001

def ERROR_RELAY_FAILED_CREATE_CONTEXT : Int := -6002

def ERROR_RELAY_FAILED_SET_SLAVE : Int := -6003

def ERROR_RELAY_FAILED_SET_TIMEOUT : Int := -6004

def ERROR_RELAY_FAILED_WRITE_REGISTER : Int := -6005

def ERROR_RELAY_INVALID_PARAMETER : Int := -6006

/- Constants from include/rrg/rrg_constants.h. -/

def RRG_DEFAULT_PARITY : Char := 'N'

def RRG_DEFAULT_BAUDRATE : Int := 38400

def RRG_DEFAULT_SLAVE_ID : Int := 1

def RRG_DEFAULT_DATA_BITS : Int := 8

def RRG_DEFAULT_STOP_BITS : Int := 1

def RRG_DEFAULT_TIMEOUT_MS : Int := 50

def MODBUS_REGISTER_SETPOINT : Nat := 2053

def MODBUS_REGISTER_FLOW : Nat := 2103

def MODBUS_REGISTER_GAS : Nat := 2100

/- Constants from include/rrg_constants.h, the variant header whose CONST_
prefixed names are the ones src/rrg/rrg.c actually uses. -/

def CONST_RRG_DEFAULT_PARITY : Char := 'N'

def CONST_RRG_DEFAULT_BAUDRATE : Int := 38400

def CONST_RRG_DEFAULT_DATA_BITS : Int := 8

def CONST_RRG_DEFAULT_STOP_BITS : Int := 1

def CONST_RRG_DEFAULT_TIMEOUT_MS : Int := 10

def MODBUS_REGISTER_TARE : Nat := 39

/- Constants from include/relay/relay_constants.h. -/

def RELAY_DEFAULT_PARITY : Char := 'N'

def RELAY_DEFAULT_BAUDRATE : Int := 115200

def RELAY_DEFAULT_SLAVE_ID : Int := 6

def RELAY_DEFAULT_DATA_BITS : Int := 8

def RELAY_DEFAULT_STOP_BITS : Int := 1

def RELAY_DEFAULT_TIMEOUT_MS : Int := 10

def MODBUS_REGISTER_TURN_ON_OFF : Nat := 512

/-- One call into the libmodbus transport layer, recorded with the arguments
the driver passed. -/
inductive TEvent where
  | newRtu (port : String) (baud : Int) (parity : Char) (dataBits stopBits : Int)
  | setSlave (slaveId : Int)
  | setTimeout (sec usec : Int)
  | connect
  | close
  | free
  | writeReg (addr value : Nat)
  | readRegs (addr count : Nat)
deriving DecidableEq

/-- Oracle fixing the outcome of each libmodbus primitive. A failed
modbus_new_rtu returns NULL, modelled by newRtuOk being false; otherwise the
created context is the non-null pointer value newRtuCtx. writeOk is keyed by
the register address of the write. read2 is the outcome of reading two
holding registers: none is a transport failure, some gives the two raw
uint16 words the device answered. -/
structure Modbus where
  newRtuOk : Bool
  newRtuCtx : Nat
  setSlaveOk : Bool
  setTimeoutOk : Bool
  connectOk : Bool
  writeOk : Nat → Bool
  read2 : Option (Nat × Nat)

/-- RRG_Config from include/rrg/rrg.h. -/
structure RRG_Config where
  port : String
  baudrate : Int
  slave_id : Int
  timeout : Int
deriving DecidableEq

/-- RRG_Handle from include/rrg/rrg.h: it holds the opaque modbus context
pointer, which may be NULL. -/
structure RRG_Handle where
  modbus_ctx : Option Nat
deriving DecidableEq

/-- Relay_Config from include/relay/relay.h. -/
structure Relay_Config where
  port : String
  baudrate : Int
  slave_id : Int
  timeout : Int
deriving DecidableEq

/-- Relay_Handle from include/relay/relay.h. -/
structure Relay_Handle where
  modbus_ctx : Option Nat
deriving DecidableEq

/-- Truncation toward zero of a rational: the semantics of the C cast
(int)(...) applied to a float value, on the domain where the cast is
defined. -/
def ctrunc (q : ℚ) : Int := if 0 ≤ q then Int.floor q else Int.ceil q

/-- The C expression value >> 16 on a signed int: arithmetic right shift of a
two's-complement integer, which is floor division by 2 ^ 16. -/
def sar16 (v : Int) : Int := Int.fdiv v 65536

/-- The C expression value & 0xFFFF on a signed int: on two's complement this
is the nonnegative remainder of v modulo 2 ^ 16. -/
def and0xFFFF (v : Int) : Int := v % 65536

/-- Conversion of a C int to uint16_t, the value parameter type of
modbus_write_register: reduction modulo 2 ^ 16. -/
def toU16 (v : Int) : Nat := (v % 65536).toNat

/-- Reinterpretation of a 32-bit pattern as a signed two's-complement int:
the value the C int expression (data[0] << 16) | data[1] takes under the
wraparound behaviour the compiled code exhibits. -/
def toSigned32 (n : Nat) : Int :=
  if n < 2 ^ 31 then (n : Int) else (n : Int) - 2 ^ 32

/-- The 32-bit two's-complement bit pattern of an int value, as a natural
number below 2 ^ 32. -/
def bits32 (v : Int) : Nat := (v % 4294967296).toNat

/-- The register pair RRG_SetFlow computes from a setpoint (rrg.c lines
69-75): the integer milli-SCCM value, its high 16 bits and its low 16 bits,
as the two uint16 values handed to modbus_write_register, high word first. -/
def encodeFlow (setpoint : ℚ) : Nat × Nat :=
  let value := ctrunc (setpoint * 1000)
  (toU16 (sar16 value), toU16 (and0xFFFF value))

/-- The flow value RRG_GetFlow computes from the two register words it read
(rrg.c line 112): the int expression (data[0] << 16) | data[1] divided by
1000.0. -/
def decodeFlow (d0 d1 : Nat) : ℚ :=
  ((toSigned32 (((d0 % 65536) <<< 16) ||| (d1 % 65536)) : Int) : ℚ) / 1000

/-- RRG_Init from src/rrg/rrg.c. Arguments: the transport oracle, the config
pointer and the handle pointer (none models NULL). Result: the C return
code, the value left in RRG_GlobalError, the new contents of the handle
struct, and the transport calls performed. -/
def RRG_Init (mb : Modbus) (config : Option RRG_Config)
    (handle : Option RRG_Handle) :
    Int × Int × Option RRG_Handle × List TEvent :=
  match config with
  | none => (RRG_ERR, ERROR_RRG_INVALID_PARAMETER, handle, [])
  | some cfg =>
    match handle with
    | none => (RRG_ERR, ERROR_RRG_INVALID_PARAMETER, handle, [])
    | some _ =>
      let ev0 := TEvent.newRtu cfg.port cfg.baudrate CONST_RRG_DEFAULT_PARITY
        CONST_RRG_DEFAULT_DATA_BITS CONST_RRG_DEFAULT_STOP_BITS
      let ctx : Option Nat := if mb.newRtuOk then some mb.newRtuCtx else none
      match ctx with
      | none => (RRG_ERR, ERROR_RRG_FAILED_CREATE_CONTEXT, handle, [ev0])
      | some c =>
        let ev1 := TEvent.setSlave cfg.slave_id
        if !mb.setSlaveOk then
          (RRG_ERR, ERROR_RRG_FAILED_SET_SLAVE, handle,
            [ev0, ev1, TEvent.free])
        else
          let ev2 := TEvent.setTimeout 0 (cfg.timeout * 1000)
          if !mb.setTimeoutOk then
            (RRG_ERR, ERROR_RRG_FAILED_SET_TIMEOUT, handle,
              [ev0, ev1, ev2, TEvent.free])
          else if !mb.connectOk then
            (RRG_ERR, ERROR_RRG_FAILED_CONNECT, handle,
              [ev0, ev1, ev2, TEvent.connect, TEvent.free])
          else
            let h2 : RRG_Handle := { modbus_ctx := some c }
            if h2.modbus_ctx.isNone then
              (RRG_ERR, ERROR_RRG_INVALID_PARAMETER, some h2,
                [ev0, ev1, ev2, TEvent.connect])
            else
              (RRG_OK, RRG_OK, some h2, [ev0, ev1, ev2, TEvent.connect])

/-- RRG_SetFlow from src/rrg/rrg.c. Result: return code, new global error,
transport calls (a failed write attempt is still a performed call). -/
def RRG_SetFlow (mb : Modbus) (handle : Option RRG_Handle) (setpoint : ℚ) :
    Int × Int × List TEvent :=
  match handle with
  | none => (RRG_ERR, ERROR_RRG_INVALID_PARAMETER, [])
  | some h =>
    match h.modbus_ctx with
    | none => (RRG_ERR, ERROR_RRG_INVALID_PARAMETER, [])
    | some _ =>
      let w1 := TEvent.writeReg MODBUS_REGISTER_SETPOINT (encodeFlow setpoint).1
      if !mb.writeOk MODBUS_REGISTER_SETPOINT then
        (RRG_ERR, ERROR_RRG_FAILED_WRITE_REGISTER, [w1])
      else
        let w2 := TEvent.writeReg (MODBUS_REGISTER_SETPOINT + 1)
          (encodeFlow setpoint).2
        if !mb.writeOk (MODBUS_REGISTER_SETPOINT + 1) then
          (RRG_ERR, ERROR_RRG_FAILED_WRITE_REGISTER, [w1, w2])
        else
          (RRG_OK, RRG_OK, [w1, w2])

/-- RRG_GetFlow from src/rrg/rrg.c. The flow argument is the pointer the
result is stored through: none models NULL, some f models a pointee holding
f. Result: return code, new global error, new pointee, transport calls. -/
def RRG_GetFlow (mb : Modbus) (handle : Option RRG_Handle) (flow : Option ℚ) :
    Int × Int × Option ℚ × List TEvent :=
  match handle with
  | none => (RRG_ERR, ERROR_RRG_INVALID_PARAMETER, flow, [])
  | some h =>
    match h.modbus_ctx with
    | none => (RRG_ERR, ERROR_RRG_INVALID_PARAMETER, flow, [])
    | some _ =>
      match flow with
      | none => (RRG_ERR, ERROR_RRG_INVALID_PARAMETER, flow, [])
      | some _ =>
        let rd := TEvent.readRegs MODBUS_REGISTER_FLOW 2
        match mb.read2 with
        | none => (RRG_ERR, ERROR_RRG_FAILED_READ_REGISTER, flow, [rd])
        | some (r0, r1) =>
          (RRG_OK, RRG_OK, some (decodeFlow r0 r1), [rd])

/-- RRG_SetGas from src/rrg/rrg.c. -/
def RRG_SetGas (mb : Modbus) (handle : Option RRG_Handle) (gas_id : Int) :
    Int × Int × List TEvent :=
  match handle with
  | none => (RRG_ERR, ERROR_RRG_INVALID_PARAMETER, [])
  | some h =>
    match h.modbus_ctx with
    | none => (RRG_ERR, ERROR_RRG_INVALID_PARAMETER, [])
    | some _ =>
      let w := TEvent.writeReg MODBUS_REGISTER_GAS (toU16 gas_id)
      if !mb.writeOk MODBUS_REGISTER_GAS then
        (RRG_ERR, ERROR_RRG_FAILED_WRITE_REGISTER, [w])
      else
        (RRG_OK, RRG_OK, [w])

/-- RRG_Close from src/rrg/rrg.c. The body never touches RRG_GlobalError, so
the global error g is threaded through unchanged. -/
def RRG_Close (g : Int) (handle : Option RRG_Handle) : Int × List TEvent :=
  match handle with
  | none => (g, [])
  | some h =>
    match h.modbus_ctx with
    | none => (g, [])
    | some _ => (g, [TEvent.close, TEvent.free])

/-- RRG_GetLastError from src/rrg/rrg.c: the message for a given value of
RRG_GlobalError. -/
def RRG_GetLastError (g : Int) : String :=
  if g = RRG_OK then "No error."
  else if g = ERROR_RRG_FAILED_CONNECT then
    "Error: Connection to the MODBUS device failed."
  else if g = ERROR_RRG_FAILED_CREATE_CONTEXT then
    "Error: Failed to create a MODBUS-RTU context."
  else if g = ERROR_RRG_FAILED_SET_SLAVE then
    "Error: Failed to set MODBUS slave ID."
  else if g = ERROR_RRG_FAILED_SET_TIMEOUT then
    "Error: Failed to set MODBUS response timeout."
  else if g = ERROR_RRG_FAILED_READ_REGISTER then
    "Error: Failed to read a MODBUS register."
  else if g = ERROR_RRG_FAILED_WRITE_REGISTER then
    "Error: Failed to write a MODBUS register."
  else if g = ERROR_RRG_INVALID_PARAMETER then
    "Error: Invalid parameter provided to function."
  else "Unknown error occurred."

/-- RELAY_Init from src/relay/relay.c, the same shape as RRG_Init with the
relay constants and error codes. -/
def RELAY_Init (mb : Modbus) (config : Option Relay_Config)
    (handle : Option Relay_Handle) :
    Int × Int × Option Relay_Handle × List TEvent :=
  match config with
  | none => (RELAY_ERR, ERROR_RELAY_INVALID_PARAMETER, handle, [])
  | some cfg =>
    match handle with
    | none => (RELAY_ERR, ERROR_RELAY_INVALID_PARAMETER, handle, [])
    | some _ =>
      let ev0 := TEvent.newRtu cfg.port cfg.baudrate RELAY_DEFAULT_PARITY
        RELAY_DEFAULT_DATA_BITS RELAY_DEFAULT_STOP_BITS
      let ctx : Option Nat := if mb.newRtuOk then some mb.newRtuCtx else none
      match ctx with
      | none => (RELAY_ERR, ERROR_RELAY_FAILED_CREATE_CONTEXT, handle, [ev0])
      | some c =>
        let ev1 := TEvent.setSlave cfg.slave_id
        if !mb.setSlaveOk then
          (RELAY_ERR, ERROR_RELAY_FAILED_SET_SLAVE, handle,
            [ev0, ev1, TEvent.free])
        else
          let ev2 := TEvent.setTimeout 0 (cfg.timeout * 1000)
          if !mb.setTimeoutOk then
            (RELAY_ERR, ERROR_RELAY_FAILED_SET_TIMEOUT, handle,
              [ev0, ev1, ev2, TEvent.free])
          else if !mb.connectOk then
            (RELAY_ERR, ERROR_RELAY_FAILED_CONNECT, handle,
              [ev0, ev1, ev2, TEvent.connect, TEvent.free])
          else
            let h2 : Relay_Handle := { modbus_ctx := some c }
            if h2.modbus_ctx.isNone then
              (RELAY_ERR, ERROR_RELAY_INVALID_PARAMETER, some h2,
                [ev0, ev1, ev2, TEvent.connect])
            else
              (RELAY_OK, RELAY_OK, some h2, [ev0, ev1, ev2, TEvent.connect])

/-- RELAY_TurnOn from src/relay/relay.c: writes the literal 1 to register
512. -/
def RELAY_TurnOn (mb : Modbus) (handle : Option Relay_Handle) :
    Int × Int × List TEvent :=
  match handle with
  | none => (RELAY_ERR, ERROR_RELAY_INVALID_PARAMETER, [])
  | some h =>
    match h.modbus_ctx with
    | none => (RELAY_ERR, ERROR_RELAY_INVALID_PARAMETER, [])
    | some _ =>
      let w := TEvent.writeReg MODBUS_REGISTER_TURN_ON_OFF 1
      if !mb.writeOk MODBUS_REGISTER_TURN_ON_OFF then
        (RELAY_ERR, ERROR_RELAY_FAILED_WRITE_REGISTER, [w])
      else
        (RELAY_OK, RELAY_OK, [w])

/-- RELAY_TurnOff from src/relay/relay.c: writes the literal 0 to register
512. -/
def RELAY_TurnOff (mb : Modbus) (handle : Option Relay_Handle) :
    Int × Int × List TEvent :=
  match handle with
  | none => (RELAY_ERR, ERROR_RELAY_INVALID_PARAMETER, [])
  | some h =>
    match h.modbus_ctx with
    | none => (RELAY_ERR, ERROR_RELAY_INVALID_PARAMETER, [])
    | some _ =>
      let w := TEvent.writeReg MODBUS_REGISTER_TURN_ON_OFF 0
      if !mb.writeOk MODBUS_REGISTER_TURN_ON_OFF then
        (RELAY_ERR, ERROR_RELAY_FAILED_WRITE_REGISTER, [w])
      else
        (RELAY_OK, RELAY_OK, [w])

/-- RELAY_Close from src/relay/relay.c: never touches RELAY_GlobalError. -/
def RELAY_Close (g : Int) (handle : Option Relay_Handle) : Int × List TEvent :=
  match handle with
  | none => (g, [])
  | some h =>
    match h.modbus_ctx with
    | none => (g, [])
    | some _ => (g, [TEvent.close, TEvent.free])

/-- RELAY_GetLastError from src/relay/relay.c. -/
def RELAY_GetLastError (g : Int) : String :=
  if g = RELAY_OK then "No error."
  else if g = ERROR_RELAY_FAILED_CONNECT then
    "Error: Connection to the MODBUS device failed."
  else if g = ERROR_RELAY_FAILED_CREATE_CONTEXT then
    "Error: Failed to create a MODBUS-RTU context."
  else if g = ERROR_RELAY_FAILED_SET_SLAVE then
    "Error: Failed to set MODBUS slave ID."
  else if g = ERROR_RELAY_FAILED_SET_TIMEOUT then
    "Error: Failed to set MODBUS response timeout."
  else if g = ERROR_RELAY_FAILED_WRITE_REGISTER then
    "Error: Failed to write a MODBUS register."
  else if g = ERROR_RELAY_INVALID_PARAMETER then
    "Error: Invalid parameter provided to function."
  else "Unknown error occurred."

/- Concrete sample data used to exercise the model at specific inputs. -/

/-- Sample flow regulator configuration. -/
def cfgA : RRG_Config :=
  { port := "/dev/ttyUSB0", baudrate := 38400, slave_id := 1, timeout := 50 }

/-- Sample relay configuration. -/
def rcfgA : Relay_Config :=
  { port := "/dev/ttyUSB1", baudrate := 115200, slave_id := 6, timeout := 10 }

/-- A handle whose context pointer is still NULL. -/
def hNull : RRG_Handle := { modbus_ctx := none }

/-- A handle holding an established context. -/
def hValid : RRG_Handle := { modbus_ctx := some 1 }

/-- A relay handle whose context pointer is still NULL. -/
def rhNull : Relay_Handle := { modbus_ctx := none }

/-- A relay handle holding an established context. -/
def rhValid : Relay_Handle := { modbus_ctx := some 1 }

/-- Transport oracle on which every primitive succeeds; reads answer the
words 1 and 500. -/
def mbAllOk : Modbus :=
  { newRtuOk := true, newRtuCtx := 1, setSlaveOk := true, setTimeoutOk := true,
    connectOk := true, writeOk := fun _ => true, read2 := some (1, 500) }

/-- Transport oracle on which modbus_connect fails. -/
def mbConnectFail : Modbus :=
  { newRtuOk := true, newRtuCtx := 1, setSlaveOk := true, setTimeoutOk := true,
    connectOk := false, writeOk := fun _ => true, read2 := some (1, 500) }

/-- Transport oracle on which every register write fails. -/
def mbW1Fail : Modbus :=
  { newRtuOk := true, newRtuCtx := 1, setSlaveOk := true, setTimeoutOk := true,
    connectOk := true, writeOk := fun _ => false, read2 := some (1, 500) }

/-- Transport oracle on which only the write to register 2053 succeeds, so
the second setpoint write fails. -/
def mbW2Fail : Modbus :=
  { newRtuOk := true, newRtuCtx := 1, setSlaveOk := true, setTimeoutOk := true,
    connectOk := true, writeOk := fun a => a == 2053, read2 := some (1, 500) }

/-- Transport oracle on which register reads fail. -/
def mbReadFail : Modbus :=
  { newRtuOk := true, newRtuCtx := 1, setSlaveOk := true, setTimeoutOk := true,
    connectOk := true, writeOk := fun _ => true, read2 := none }

/- Arithmetic bridge lemmas. -/

/-- Joining a high word shifted left by 16 with a low word below 2 ^ 16 by
bitwise or is plain positional addition. -/
lemma shiftLeft16_lor (a b : Nat) (hb : b < 65536) :
    (a <<< 16) ||| b = a * 65536 + b := by
  have h1 : a <<< 16 = a * 65536 := by
    rw [Nat.shiftLeft_eq]
  have h2 : b < 2 ^ 16 := by omega
  calc (a <<< 16) ||| b = (2 ^ 16 * a) ||| b := by rw [h1, Nat.mul_comm]
    _ = 2 ^ 16 * a + b := (Nat.mul_add_lt_is_or h2 a).symm
    _ = a * 65536 + b := by rw [Nat.mul_comm]

/-- Decoding the register pair produced by the setpoint encoder recovers the
encoded nonnegative 32-bit integer, scaled by 1000. -/
lemma decodeFlow_encode_int (v : Int) (h0 : 0 ≤ v) (h1 : v < 2 ^ 31) :
    decodeFlow (toU16 (sar16 v)) (toU16 (and0xFFFF v)) = (v : ℚ) / 1000 := by
  unfold decodeFlow toU16 sar16 and0xFFFF
  rw [Int.fdiv_eq_ediv v (by norm_num)]
  have hb0 : ((v / 65536) % 65536).toNat < 65536 := by omega
  have hb1 : ((v % 65536) % 65536).toNat < 65536 := by omega
  rw [Nat.mod_eq_of_lt hb0, Nat.mod_eq_of_lt hb1,
    shiftLeft16_lor _ _ hb1]
  have hval : ((v / 65536) % 65536).toNat * 65536 +
      ((v % 65536) % 65536).toNat = v.toNat := by omega
  rw [hval]
  unfold toSigned32
  rw [if_pos (by omega : v.toNat < 2 ^ 31)]
  rw [Int.toNat_of_nonneg h0]

/-- C1: for every setpoint s greater or equal 0 whose milli-SCCM value fits
in 32 signed bits, encoding s as RRG_SetFlow does (truncate s * 1000, high
word = value shifted right 16, low word = value masked with 0xFFFF) and
decoding the two words as RRG_GetFlow does reproduces s to within 0.001. -/
theorem setFlow_getFlow_roundtrip (s : ℚ) (hs : 0 ≤ s)
    (hrep : ctrunc (s * 1000) < 2 ^ 31) :
    |decodeFlow (encodeFlow s).1 (encodeFlow s).2 - s| ≤ 1 / 1000 := by
  have hq : (0 : ℚ) ≤ s * 1000 := by positivity
  have hct : ctrunc (s * 1000) = Int.floor (s * 1000) := by
    unfold ctrunc
    rw [if_pos hq]
  set v : Int := Int.floor (s * 1000) with hv
  have hv0 : 0 ≤ v := Int.le_floor.mpr (by exact_mod_cast hq)
  have hv1 : v < 2 ^ 31 := by rw [hv]; rw [hct] at hrep; exact hrep
  have he : encodeFlow s = (toU16 (sar16 v), toU16 (and0xFFFF v)) := by
    unfold encodeFlow
    rw [hct]
  rw [he]
  rw [decodeFlow_encode_int v hv0 hv1]
  have hfl : (v : ℚ) ≤ s * 1000 := Int.floor_le _
  have hfu : s * 1000 - 1 < (v : ℚ) := Int.sub_one_lt_floor _
  rw [abs_le]
  constructor <;> [linarith; linarith]

/-- Witness for C1 at the concrete setpoint 3/2 SCCM. -/
theorem setFlow_getFlow_roundtrip_witness :
    |decodeFlow (encodeFlow (3 / 2)).1 (encodeFlow (3 / 2)).2 - 3 / 2| ≤
      1 / 1000 :=
  setFlow_getFlow_roundtrip (3 / 2) (by norm_num)
    (by
      unfold ctrunc
      rw [if_pos (by norm_num : (0 : ℚ) ≤ 3 / 2 * 1000)]
      have h15 : ((3 : ℚ) / 2 * 1000) = ((1500 : ℤ) : ℚ) := by norm_num
      rw [h15, Int.floor_intCast]
      norm_num)

/-- C7: opening with a NULL config pointer or a NULL handle pointer fails
with the invalid-parameter error and performs no transport call at all, for
both RRG_Init and RELAY_Init. -/
theorem init_null_params (mb : Modbus) (hdl : Option RRG_Handle)
    (cfg : RRG_Config) (rhdl : Option Relay_Handle) (rcfg : Relay_Config) :
    RRG_Init mb none hdl = (RRG_ERR, ERROR_RRG_INVALID_PARAMETER, hdl, []) ∧
    RRG_Init mb (some cfg) none =
      (RRG_ERR, ERROR_RRG_INVALID_PARAMETER, none, []) ∧
    RELAY_Init mb none rhdl =
      (RELAY_ERR, ERROR_RELAY_INVALID_PARAMETER, rhdl, []) ∧
    RELAY_Init mb (some rcfg) none =
      (RELAY_ERR, ERROR_RELAY_INVALID_PARAMETER, none, []) :=
  ⟨rfl, rfl, rfl, rfl⟩

/-- C9 counterexample: the source defines two flow regulator default
timeouts, and the variant header include/rrg_constants.h (the one whose
CONST_ names rrg.c itself uses) sets 10 ms, so the claim that the
source-defined flow regulator default timeout is 50 ms fails on that
variant. -/
theorem default_timeout_two_variants :
    ¬ (RRG_DEFAULT_TIMEOUT_MS = 50 ∧ CONST_RRG_DEFAULT_TIMEOUT_MS = 50) := by
  decide

/-- C9 amended: the relay defaults are baud 115200, slave id 6, timeout
10 ms; the flow regulator defaults are baud 38400, slave id 1 and timeout
50 ms in include/rrg/rrg_constants.h, while the contradictory variant
include/rrg_constants.h sets baud 38400 and timeout 10 ms with no default
slave id. -/
theorem default_parameters_values :
    RELAY_DEFAULT_BAUDRATE = 115200 ∧ RELAY_DEFAULT_SLAVE_ID = 6 ∧
    RELAY_DEFAULT_TIMEOUT_MS = 10 ∧
    RRG_DEFAULT_BAUDRATE = 38400 ∧ RRG_DEFAULT_SLAVE_ID = 1 ∧
    RRG_DEFAULT_TIMEOUT_MS = 50 ∧
    CONST_RRG_DEFAULT_BAUDRATE = 38400 ∧
    CONST_RRG_DEFAULT_TIMEOUT_MS = 10 := by
  decide

/-- C4: on a valid handle, a failed first setpoint write makes RRG_SetFlow
fail with the write-register error after issuing only that one write; a
failed second write makes it fail the same way after the two writes, with
the already performed high-word write left in place and no further write
issued. -/
theorem setFlow_no_rollback (mb : Modbus) (h : RRG_Handle) (c : Nat) (s : ℚ)
    (hc : h.modbus_ctx = some c) :
    (mb.writeOk MODBUS_REGISTER_SETPOINT = false →
      (RRG_SetFlow mb (some h) s).1 = RRG_ERR ∧
      (RRG_SetFlow mb (some h) s).2.1 = ERROR_RRG_FAILED_WRITE_REGISTER ∧
      (RRG_SetFlow mb (some h) s).2.2 =
        [TEvent.writeReg MODBUS_REGISTER_SETPOINT (encodeFlow s).1]) ∧
    (mb.writeOk MODBUS_REGISTER_SETPOINT = true →
      mb.writeOk (MODBUS_REGISTER_SETPOINT + 1) = false →
      (RRG_SetFlow mb (some h) s).1 = RRG_ERR ∧
      (RRG_SetFlow mb (some h) s).2.1 = ERROR_RRG_FAILED_WRITE_REGISTER ∧
      (RRG_SetFlow mb (some h) s).2.2 =
        [TEvent.writeReg MODBUS_REGISTER_SETPOINT (encodeFlow s).1,
         TEvent.writeReg (MODBUS_REGISTER_SETPOINT + 1) (encodeFlow s).2]) := by
  constructor
  · intro hw1
    simp [RRG_SetFlow, hc, hw1]
  · intro hw1 hw2
    simp [RRG_SetFlow, hc, hw1, hw2]

/-- Witness for C4: with a transport that accepts the write to 2053 and
rejects the write to 2054, SetFlow fails and leaves exactly the two write
attempts in the trace. -/
theorem setFlow_no_rollback_witness :
    (RRG_SetFlow mbW2Fail (some hValid) 2).1 = RRG_ERR ∧
    (RRG_SetFlow mbW2Fail (some hValid) 2).2.1 =
      ERROR_RRG_FAILED_WRITE_REGISTER ∧
    (RRG_SetFlow mbW2Fail (some hValid) 2).2.2 =
      [TEvent.writeReg MODBUS_REGISTER_SETPOINT (encodeFlow 2).1,
       TEvent.writeReg (MODBUS_REGISTER_SETPOINT + 1) (encodeFlow 2).2] :=
  (setFlow_no_rollback mbW2Fail hValid 1 2 rfl).2 rfl rfl

/-- C8: on a valid relay handle TurnOn issues exactly the single write of
the literal 1 and TurnOff exactly the single write of the literal 0, both
to the fixed control register 512, so a successful TurnOn followed by a
successful TurnOff produces exactly the two writes 1 then 0 there. -/
theorem relay_turnOnOff_writes (mb : Modbus) (h : Relay_Handle) (c : Nat)
    (hc : h.modbus_ctx = some c)
    (hw : mb.writeOk MODBUS_REGISTER_TURN_ON_OFF = true) :
    (RELAY_TurnOn mb (some h)).1 = RELAY_OK ∧
    (RELAY_TurnOff mb (some h)).1 = RELAY_OK ∧
    (RELAY_TurnOn mb (some h)).2.2 =
      [TEvent.writeReg MODBUS_REGISTER_TURN_ON_OFF 1] ∧
    (RELAY_TurnOff mb (some h)).2.2 =
      [TEvent.writeReg MODBUS_REGISTER_TURN_ON_OFF 0] ∧
    (RELAY_TurnOn mb (some h)).2.2 ++ (RELAY_TurnOff mb (some h)).2.2 =
      [TEvent.writeReg MODBUS_REGISTER_TURN_ON_OFF 1,
       TEvent.writeReg MODBUS_REGISTER_TURN_ON_OFF 0] ∧
    MODBUS_REGISTER_TURN_ON_OFF = 512 := by
  simp [RELAY_TurnOn, RELAY_TurnOff, hc, hw]
  decide

/-- Witness for C8 on the all-success transport oracle. -/
theorem relay_turnOnOff_writes_witness :
    (RELAY_TurnOn mbAllOk (some rhValid)).2.2 ++
      (RELAY_TurnOff mbAllOk (some rhValid)).2.2 =
      [TEvent.writeReg MODBUS_REGISTER_TURN_ON_OFF 1,
       TEvent.writeReg MODBUS_REGISTER_TURN_ON_OFF 0] :=
  (relay_turnOnOff_writes mbAllOk rhValid 1 rfl rfl).2.2.2.2.1

/-- C2: when session creation succeeds and a later Init step fails (slave
id, timeout or connect), the created session is freed exactly once before
returning, for both RRG_Init and RELAY_Init. -/
theorem init_failure_frees_session (mb : Modbus) (cfg : RRG_Config)
    (h0 : RRG_Handle) (rcfg : Relay_Config) (rh0 : Relay_Handle)
    (hctx : mb.newRtuOk = true) :
    ((RRG_Init mb (some cfg) (some h0)).1 ≠ RRG_OK →
      ((RRG_Init mb (some cfg) (some h0)).2.2.2).count TEvent.free = 1) ∧
    ((RELAY_Init mb (some rcfg) (some rh0)).1 ≠ RELAY_OK →
      ((RELAY_Init mb (some rcfg) (some rh0)).2.2.2).count TEvent.free = 1) := by
  cases hs : mb.setSlaveOk <;> cases ht : mb.setTimeoutOk <;>
    cases hcn : mb.connectOk <;>
      constructor <;> intro hne <;>
        simp_all [RRG_Init, RELAY_Init, RRG_OK, RELAY_OK, RRG_ERR, RELAY_ERR,
          List.count_cons]

/-- Witness for C2: a connect failure on the flow regulator frees the
session exactly once. -/
theorem init_failure_frees_session_witness :
    ((RRG_Init mbConnectFail (some cfgA) (some hNull)).2.2.2).count
      TEvent.free = 1 :=
  (init_failure_frees_session mbConnectFail cfgA hNull rcfgA rhNull rfl).1
    (by decide)

/-- High word handed to modbus_write_register: masking the arithmetic right
shift to 16 bits yields the top 16 bits of the 32-bit two's-complement
pattern of the value. -/
lemma toU16_sar16 (v : Int) : toU16 (sar16 v) = bits32 v / 65536 := by
  unfold toU16 sar16 bits32
  rw [Int.fdiv_eq_ediv v (by norm_num)]
  omega

/-- Low word handed to modbus_write_register: the 0xFFFF mask yields the low
16 bits of the 32-bit two's-complement pattern of the value. -/
lemma toU16_and0xFFFF (v : Int) : toU16 (and0xFFFF v) = bits32 v % 65536 := by
  unfold toU16 and0xFFFF bits32
  omega

/-- Truncation of a rational that is an integer cast is that integer. -/
lemma ctrunc_intCast (n : Int) : ctrunc ((n : ℚ)) = n := by
  unfold ctrunc
  split
  · exact Int.floor_intCast n
  · exact Int.ceil_intCast n

/-- C5: on a valid handle with both writes accepted, SetFlow writes the
signed integer truncation of setpoint * 1000 split into its two 16-bit
words: the high word goes to register 2053 first, the low word to 2054
second. -/
theorem setFlow_encoding (mb : Modbus) (h : RRG_Handle) (c : Nat) (s : ℚ)
    (hc : h.modbus_ctx = some c)
    (_hlo : -(2 ^ 31) ≤ ctrunc (s * 1000)) (_hhi : ctrunc (s * 1000) < 2 ^ 31)
    (hw1 : mb.writeOk MODBUS_REGISTER_SETPOINT = true)
    (hw2 : mb.writeOk (MODBUS_REGISTER_SETPOINT + 1) = true) :
    (RRG_SetFlow mb (some h) s).2.2 =
      [TEvent.writeReg 2053 (bits32 (ctrunc (s * 1000)) / 65536),
       TEvent.writeReg 2054 (bits32 (ctrunc (s * 1000)) % 65536)] := by
  simp only [ MODBUS_REGISTER_SETPOINT] at hw1 hw2
  simp [RRG_SetFlow, hc, hw1, hw2, encodeFlow, toU16_sar16, toU16_and0xFFFF,
    MODBUS_REGISTER_SETPOINT]

/-- Witness for C5 at the concrete setpoint 2 SCCM: the value 2000 is split
into high word 0 at 2053 and low word 2000 at 2054. -/
theorem setFlow_encoding_witness :
    (RRG_SetFlow mbAllOk (some hValid) 2).2.2 =
      [TEvent.writeReg 2053 (bits32 (ctrunc (2 * 1000)) / 65536),
       TEvent.writeReg 2054 (bits32 (ctrunc (2 * 1000)) % 65536)] := by
  have h2000 : ((2 : ℚ) * 1000) = ((2000 : ℤ) : ℚ) := by norm_num
  refine setFlow_encoding mbAllOk hValid 1 2 rfl ?_ ?_ rfl rfl <;>
    rw [h2000, ctrunc_intCast] <;> decide

/-- C6: on a valid handle and non-NULL out-pointer, GetFlow performs exactly
one read of two consecutive holding registers at the flow register 2103; a
transport failure yields the read-register error, and a successful read
stores the register pair decoded as a signed 32-bit integer scaled by 1000,
namely (high * 2 ^ 16 + low) reinterpreted in two's complement and divided
by 1000. -/
theorem getFlow_spec (mb : Modbus) (h : RRG_Handle) (c : Nat) (f0 : ℚ)
    (hc : h.modbus_ctx = some c) :
    ((RRG_GetFlow mb (some h) (some f0)).2.2.2 =
      [TEvent.readRegs MODBUS_REGISTER_FLOW 2] ∧
      MODBUS_REGISTER_FLOW = 2103) ∧
    (mb.read2 = none →
      (RRG_GetFlow mb (some h) (some f0)).1 = RRG_ERR ∧
      (RRG_GetFlow mb (some h) (some f0)).2.1 =
        ERROR_RRG_FAILED_READ_REGISTER) ∧
    (∀ r0 r1 : Nat, mb.read2 = some (r0, r1) →
      (RRG_GetFlow mb (some h) (some f0)).1 = RRG_OK ∧
      (RRG_GetFlow mb (some h) (some f0)).2.2.1 =
        some (decodeFlow r0 r1)) ∧
    (∀ d0 d1 : Nat, d0 < 65536 → d1 < 65536 →
      decodeFlow d0 d1 =
        ((toSigned32 (d0 * 65536 + d1) : Int) : ℚ) / 1000) := by
  refine ⟨⟨?_, rfl⟩, ?_, ?_, ?_⟩
  · rcases hr : mb.read2 with _ | ⟨r0, r1⟩ <;> simp [RRG_GetFlow, hc, hr]
  · intro hr
    simp [RRG_GetFlow, hc, hr]
  · intro r0 r1 hr
    simp [RRG_GetFlow, hc, hr]
  · intro d0 d1 hd0 hd1
    unfold decodeFlow
    rw [Nat.mod_eq_of_lt hd0, Nat.mod_eq_of_lt hd1, shiftLeft16_lor _ _ hd1]

/-- Witness for C6: reading the words 1 and 500 returns their decoding. -/
theorem getFlow_spec_witness :
    (RRG_GetFlow mbAllOk (some hValid) (some 0)).1 = RRG_OK ∧
    (RRG_GetFlow mbAllOk (some hValid) (some 0)).2.2.1 =
      some (decodeFlow 1 500) :=
  (getFlow_spec mbAllOk hValid 1 0 rfl).2.2.1 1 500 rfl

/-- C10: a failing GetFlow never stores through the flow out-pointer and a
failing Init never stores into the handle: on every error path the
caller-supplied memory is returned unchanged. -/
theorem failing_ops_frame (mb : Modbus) (cfg : Option RRG_Config)
    (hdl : Option RRG_Handle) (fl : Option ℚ) :
    ((RRG_GetFlow mb hdl fl).1 ≠ RRG_OK →
      (RRG_GetFlow mb hdl fl).2.2.1 = fl) ∧
    ((RRG_Init mb cfg hdl).1 ≠ RRG_OK →
      (RRG_Init mb cfg hdl).2.2.1 = hdl) := by
  constructor
  · intro hne
    rcases hdl with _ | h
    · rfl
    · rcases hh : h.modbus_ctx with _ | c
      · simp [RRG_GetFlow, hh]
      · rcases fl with _ | f
        · simp [RRG_GetFlow, hh]
        · rcases hr : mb.read2 with _ | ⟨r0, r1⟩
          · simp [RRG_GetFlow, hh, hr]
          · exact absurd (by simp [RRG_GetFlow, hh, hr, RRG_OK]) hne
  · intro hne
    rcases cfg with _ | cfg
    · rfl
    · rcases hdl with _ | h
      · rfl
      · cases hn : mb.newRtuOk <;> cases hs : mb.setSlaveOk <;>
          cases ht : mb.setTimeoutOk <;> cases hcn : mb.connectOk <;>
          simp_all [RRG_Init, RRG_OK, RRG_ERR]

/-- Witness for C10: a failed read leaves the pointee 0 in place, and a
failed connect leaves the NULL context in the handle. -/
theorem failing_ops_frame_witness :
    (RRG_GetFlow mbReadFail (some hValid) (some 0)).2.2.1 = some 0 ∧
    (RRG_Init mbConnectFail (some cfgA) (some hNull)).2.2.1 = some hNull := by
  constructor
  · exact (failing_ops_frame mbReadFail (some cfgA) (some hValid)
      (some 0)).1 (by decide)
  · exact (failing_ops_frame mbConnectFail (some cfgA) (some hNull)
      (some 0)).2 (by decide)

/-- C3 counterexample: RRG_Close never touches the last-error state, so
after a recorded connect failure a completed Close (a succeeding operation,
it has no failure mode) does not reset it and GetLastError still returns the
old specific message instead of the no-error one. -/
theorem close_keeps_last_error :
    (RRG_Close ERROR_RRG_FAILED_CONNECT (some { modbus_ctx := some 1 })).1 =
      ERROR_RRG_FAILED_CONNECT ∧
    RRG_GetLastError
      (RRG_Close ERROR_RRG_FAILED_CONNECT
        (some { modbus_ctx := some 1 })).1 ≠ "No error." := by
  constructor
  · rfl
  · decide

/-- C3 amended: every operation except Close overwrites the last-error
state. Every succeeding operation resets it to the no-error code, whose
message is the no-error one; every failing operation sets exactly the
specific code of the step that failed, each specific code maps to its own
fixed message, none of which is the no-error or the generic unknown-error
message; unknown codes map to the generic unknown-error message; the Close
functions leave the state untouched. -/
theorem lastError_lifecycle (mb : Modbus) (cfg : RRG_Config)
    (h0 : RRG_Handle) (c : Nat) (hdl : Option RRG_Handle) (s : ℚ) (gas : Int)
    (f0 : ℚ) (rcfg : Relay_Config) (rh0 : Relay_Handle) (rc : Nat)
    (rhdl : Option Relay_Handle) (g : Int) :
    (((RRG_Init mb none hdl).1 = RRG_ERR ∧
      (RRG_Init mb none hdl).2.1 = ERROR_RRG_INVALID_PARAMETER) ∧
     ((RRG_Init mb (some cfg) none).1 = RRG_ERR ∧
      (RRG_Init mb (some cfg) none).2.1 = ERROR_RRG_INVALID_PARAMETER)) ∧
    ((mb.newRtuOk = false →
      (RRG_Init mb (some cfg) (some h0)).1 = RRG_ERR ∧
      (RRG_Init mb (some cfg) (some h0)).2.1 =
        ERROR_RRG_FAILED_CREATE_CONTEXT) ∧
     (mb.newRtuOk = true → mb.setSlaveOk = false →
      (RRG_Init mb (some cfg) (some h0)).1 = RRG_ERR ∧
      (RRG_Init mb (some cfg) (some h0)).2.1 = ERROR_RRG_FAILED_SET_SLAVE) ∧
     (mb.newRtuOk = true → mb.setSlaveOk = true → mb.setTimeoutOk = false →
      (RRG_Init mb (some cfg) (some h0)).1 = RRG_ERR ∧
      (RRG_Init mb (some cfg) (some h0)).2.1 =
        ERROR_RRG_FAILED_SET_TIMEOUT) ∧
     (mb.newRtuOk = true → mb.setSlaveOk = true → mb.setTimeoutOk = true →
      mb.connectOk = false →
      (RRG_Init mb (some cfg) (some h0)).1 = RRG_ERR ∧
      (RRG_Init mb (some cfg) (some h0)).2.1 = ERROR_RRG_FAILED_CONNECT) ∧
     (mb.newRtuOk = true → mb.setSlaveOk = true → mb.setTimeoutOk = true →
      mb.connectOk = true →
      (RRG_Init mb (some cfg) (some h0)).1 = RRG_OK ∧
      (RRG_Init mb (some cfg) (some h0)).2.1 = RRG_OK)) ∧
    (((RRG_SetFlow mb none s).1 = RRG_ERR ∧
      (RRG_SetFlow mb none s).2.1 = ERROR_RRG_INVALID_PARAMETER) ∧
     ((RRG_SetFlow mb (some { modbus_ctx := none }) s).1 = RRG_ERR ∧
      (RRG_SetFlow mb (some { modbus_ctx := none }) s).2.1 =
        ERROR_RRG_INVALID_PARAMETER) ∧
     (h0.modbus_ctx = some c →
      mb.writeOk MODBUS_REGISTER_SETPOINT = false →
      (RRG_SetFlow mb (some h0) s).1 = RRG_ERR ∧
      (RRG_SetFlow mb (some h0) s).2.1 = ERROR_RRG_FAILED_WRITE_REGISTER) ∧
     (h0.modbus_ctx = some c →
      mb.writeOk MODBUS_REGISTER_SETPOINT = true →
      mb.writeOk (MODBUS_REGISTER_SETPOINT + 1) = false →
      (RRG_SetFlow mb (some h0) s).1 = RRG_ERR ∧
      (RRG_SetFlow mb (some h0) s).2.1 = ERROR_RRG_FAILED_WRITE_REGISTER) ∧
     (h0.modbus_ctx = some c →
      mb.writeOk MODBUS_REGISTER_SETPOINT = true →
      mb.writeOk (MODBUS_REGISTER_SETPOINT + 1) = true →
      (RRG_SetFlow mb (some h0) s).1 = RRG_OK ∧
      (RRG_SetFlow mb (some h0) s).2.1 = RRG_OK)) ∧
    (((RRG_GetFlow mb none (some f0)).1 = RRG_ERR ∧
      (RRG_GetFlow mb none (some f0)).2.1 = ERROR_RRG_INVALID_PARAMETER) ∧
     ((RRG_GetFlow mb (some { modbus_ctx := none }) (some f0)).1 = RRG_ERR ∧
      (RRG_GetFlow mb (some { modbus_ctx := none }) (some f0)).2.1 =
        ERROR_RRG_INVALID_PARAMETER) ∧
     (h0.modbus_ctx = some c →
      (RRG_GetFlow mb (some h0) none).1 = RRG_ERR ∧
      (RRG_GetFlow mb (some h0) none).2.1 = ERROR_RRG_INVALID_PARAMETER) ∧
     (h0.modbus_ctx = some c → mb.read2 = none →
      (RRG_GetFlow mb (some h0) (some f0)).1 = RRG_ERR ∧
      (RRG_GetFlow mb (some h0) (some f0)).2.1 =
        ERROR_RRG_FAILED_READ_REGISTER) ∧
     (h0.modbus_ctx = some c → ∀ r0 r1 : Nat, mb.read2 = some (r0, r1) →
      (RRG_GetFlow mb (some h0) (some f0)).1 = RRG_OK ∧
      (RRG_GetFlow mb (some h0) (some f0)).2.1 = RRG_OK)) ∧
    (((RRG_SetGas mb none gas).1 = RRG_ERR ∧
      (RRG_SetGas mb none gas).2.1 = ERROR_RRG_INVALID_PARAMETER) ∧
     ((RRG_SetGas mb (some { modbus_ctx := none }) gas).1 = RRG_ERR ∧
      (RRG_SetGas mb (some { modbus_ctx := none }) gas).2.1 =
        ERROR_RRG_INVALID_PARAMETER) ∧
     (h0.modbus_ctx = some c → mb.writeOk MODBUS_REGISTER_GAS = false →
      (RRG_SetGas mb (some h0) gas).1 = RRG_ERR ∧
      (RRG_SetGas mb (some h0) gas).2.1 = ERROR_RRG_FAILED_WRITE_REGISTER) ∧
     (h0.modbus_ctx = some c → mb.writeOk MODBUS_REGISTER_GAS = true →
      (RRG_SetGas mb (some h0) gas).1 = RRG_OK ∧
      (RRG_SetGas mb (some h0) gas).2.1 = RRG_OK)) ∧
    (((RELAY_Init mb none rhdl).1 = RELAY_ERR ∧
      (RELAY_Init mb none rhdl).2.1 = ERROR_RELAY_INVALID_PARAMETER) ∧
     ((RELAY_Init mb (some rcfg) none).1 = RELAY_ERR ∧
      (RELAY_Init mb (some rcfg) none).2.1 =
        ERROR_RELAY_INVALID_PARAMETER)) ∧
    ((mb.newRtuOk = false →
      (RELAY_Init mb (some rcfg) (some rh0)).1 = RELAY_ERR ∧
      (RELAY_Init mb (some rcfg) (some rh0)).2.1 =
        ERROR_RELAY_FAILED_CREATE_CONTEXT) ∧
     (mb.newRtuOk = true → mb.setSlaveOk = false →
      (RELAY_Init mb (some rcfg) (some rh0)).1 = RELAY_ERR ∧
      (RELAY_Init mb (some rcfg) (some rh0)).2.1 =
        ERROR_RELAY_FAILED_SET_SLAVE) ∧
     (mb.newRtuOk = true → mb.setSlaveOk = true → mb.setTimeoutOk = false →
      (RELAY_Init mb (some rcfg) (some rh0)).1 = RELAY_ERR ∧
      (RELAY_Init mb (some rcfg) (some rh0)).2.1 =
        ERROR_RELAY_FAILED_SET_TIMEOUT) ∧
     (mb.newRtuOk = true → mb.setSlaveOk = true → mb.setTimeoutOk = true →
      mb.connectOk = false →
      (RELAY_Init mb (some rcfg) (some rh0)).1 = RELAY_ERR ∧
      (RELAY_Init mb (some rcfg) (some rh0)).2.1 =
        ERROR_RELAY_FAILED_CONNECT) ∧
     (mb.newRtuOk = true → mb.setSlaveOk = true → mb.setTimeoutOk = true →
      mb.connectOk = true →
      (RELAY_Init mb (some rcfg) (some rh0)).1 = RELAY_OK ∧
      (RELAY_Init mb (some rcfg) (some rh0)).2.1 = RELAY_OK)) ∧
    (((RELAY_TurnOn mb none).1 = RELAY_ERR ∧
      (RELAY_TurnOn mb none).2.1 = ERROR_RELAY_INVALID_PARAMETER) ∧
     ((RELAY_TurnOn mb (some { modbus_ctx := none })).1 = RELAY_ERR ∧
      (RELAY_TurnOn mb (some { modbus_ctx := none })).2.1 =
        ERROR_RELAY_INVALID_PARAMETER) ∧
     (rh0.modbus_ctx = some rc →
      mb.writeOk MODBUS_REGISTER_TURN_ON_OFF = false →
      (RELAY_TurnOn mb (some rh0)).1 = RELAY_ERR ∧
      (RELAY_TurnOn mb (some rh0)).2.1 =
        ERROR_RELAY_FAILED_WRITE_REGISTER) ∧
     (rh0.modbus_ctx = some rc →
      mb.writeOk MODBUS_REGISTER_TURN_ON_OFF = true →
      (RELAY_TurnOn mb (some rh0)).1 = RELAY_OK ∧
      (RELAY_TurnOn mb (some rh0)).2.1 = RELAY_OK)) ∧
    (((RELAY_TurnOff mb none).1 = RELAY_ERR ∧
      (RELAY_TurnOff mb none).2.1 = ERROR_RELAY_INVALID_PARAMETER) ∧
     ((RELAY_TurnOff mb (some { modbus_ctx := none })).1 = RELAY_ERR ∧
      (RELAY_TurnOff mb (some { modbus_ctx := none })).2.1 =
        ERROR_RELAY_INVALID_PARAMETER) ∧
     (rh0.modbus_ctx = some rc →
      mb.writeOk MODBUS_REGISTER_TURN_ON_OFF = false →
      (RELAY_TurnOff mb (some rh0)).1 = RELAY_ERR ∧
      (RELAY_TurnOff mb (some rh0)).2.1 =
        ERROR_RELAY_FAILED_WRITE_REGISTER) ∧
     (rh0.modbus_ctx = some rc →
      mb.writeOk MODBUS_REGISTER_TURN_ON_OFF = true →
      (RELAY_TurnOff mb (some rh0)).1 = RELAY_OK ∧
      (RELAY_TurnOff mb (some rh0)).2.1 = RELAY_OK)) ∧
    ((RRG_Close g hdl).1 = g ∧ (RELAY_Close g rhdl).1 = g) ∧
    (RRG_GetLastError RRG_OK = "No error." ∧
     RRG_GetLastError ERROR_RRG_INVALID_PARAMETER =
       "Error: Invalid parameter provided to function." ∧
     RRG_GetLastError ERROR_RRG_FAILED_CREATE_CONTEXT =
       "Error: Failed to create a MODBUS-RTU context." ∧
     RRG_GetLastError ERROR_RRG_FAILED_SET_SLAVE =
       "Error: Failed to set MODBUS slave ID." ∧
     RRG_GetLastError ERROR_RRG_FAILED_SET_TIMEOUT =
       "Error: Failed to set MODBUS response timeout." ∧
     RRG_GetLastError ERROR_RRG_FAILED_CONNECT =
       "Error: Connection to the MODBUS device failed." ∧
     RRG_GetLastError ERROR_RRG_FAILED_READ_REGISTER =
       "Error: Failed to read a MODBUS register." ∧
     RRG_GetLastError ERROR_RRG_FAILED_WRITE_REGISTER =
       "Error: Failed to write a MODBUS register.") ∧
    (∀ e ∈ ([ERROR_RRG_FAILED_CONNECT, ERROR_RRG_FAILED_CREATE_CONTEXT,
        ERROR_RRG_FAILED_SET_SLAVE, ERROR_RRG_FAILED_SET_TIMEOUT,
        ERROR_RRG_FAILED_READ_REGISTER, ERROR_RRG_FAILED_WRITE_REGISTER,
        ERROR_RRG_INVALID_PARAMETER] : List Int),
      RRG_GetLastError e ≠ "No error." ∧
      RRG_GetLastError e ≠ "Unknown error occurred.") ∧
    (∀ e : Int,
      e ∉ ([RRG_OK, ERROR_RRG_FAILED_CONNECT, ERROR_RRG_FAILED_CREATE_CONTEXT,
        ERROR_RRG_FAILED_SET_SLAVE, ERROR_RRG_FAILED_SET_TIMEOUT,
        ERROR_RRG_FAILED_READ_REGISTER, ERROR_RRG_FAILED_WRITE_REGISTER,
        ERROR_RRG_INVALID_PARAMETER] : List Int) →
      RRG_GetLastError e = "Unknown error occurred.") ∧
    ((RELAY_GetLastError RELAY_OK = "No error." ∧
      RELAY_GetLastError ERROR_RELAY_INVALID_PARAMETER =
        "Error: Invalid parameter provided to function." ∧
      RELAY_GetLastError ERROR_RELAY_FAILED_CREATE_CONTEXT =
        "Error: Failed to create a MODBUS-RTU context." ∧
      RELAY_GetLastError ERROR_RELAY_FAILED_SET_SLAVE =
        "Error: Failed to set MODBUS slave ID." ∧
      RELAY_GetLastError ERROR_RELAY_FAILED_SET_TIMEOUT =
        "Error: Failed to set MODBUS response timeout." ∧
      RELAY_GetLastError ERROR_RELAY_FAILED_CONNECT =
        "Error: Connection to the MODBUS device failed." ∧
      RELAY_GetLastError ERROR_RELAY_FAILED_WRITE_REGISTER =
        "Error: Failed to write a MODBUS register.") ∧
     (∀ e ∈ ([ERROR_RELAY_FAILED_CONNECT, ERROR_RELAY_FAILED_CREATE_CONTEXT,
        ERROR_RELAY_FAILED_SET_SLAVE, ERROR_RELAY_FAILED_SET_TIMEOUT,
        ERROR_RELAY_FAILED_WRITE_REGISTER,
        ERROR_RELAY_INVALID_PARAMETER] : List Int),
      RELAY_GetLastError e ≠ "No error." ∧
      RELAY_GetLastError e ≠ "Unknown error occurred.") ∧
     (∀ e : Int,
      e ∉ ([RELAY_OK, ERROR_RELAY_FAILED_CONNECT,
        ERROR_RELAY_FAILED_CREATE_CONTEXT, ERROR_RELAY_FAILED_SET_SLAVE,
        ERROR_RELAY_FAILED_SET_TIMEOUT, ERROR_RELAY_FAILED_WRITE_REGISTER,
        ERROR_RELAY_INVALID_PARAMETER] : List Int) →
      RELAY_GetLastError e = "Unknown error occurred.")) := by
  refine ⟨⟨⟨rfl, rfl⟩, rfl, rfl⟩, ⟨?_, ?_, ?_, ?_, ?_⟩,
    ⟨⟨rfl, rfl⟩, ⟨rfl, rfl⟩, ?_, ?_, ?_⟩,
    ⟨⟨rfl, rfl⟩, ⟨rfl, rfl⟩, ?_, ?_, ?_⟩,
    ⟨⟨rfl, rfl⟩, ⟨rfl, rfl⟩, ?_, ?_⟩,
    ⟨⟨rfl, rfl⟩, rfl, rfl⟩, ⟨?_, ?_, ?_, ?_, ?_⟩,
    ⟨⟨rfl, rfl⟩, ⟨rfl, rfl⟩, ?_, ?_⟩,
    ⟨⟨rfl, rfl⟩, ⟨rfl, rfl⟩, ?_, ?_⟩,
    ⟨?_, ?_⟩, by decide, by decide, ?_, by decide, by decide, ?_⟩
  · intro hn
    simp [RRG_Init, hn]
  · intro hn hs
    simp [RRG_Init, hn, hs]
  · intro hn hs ht
    simp [RRG_Init, hn, hs, ht]
  · intro hn hs ht hcn
    simp [RRG_Init, hn, hs, ht, hcn]
  · intro hn hs ht hcn
    simp [RRG_Init, hn, hs, ht, hcn]
  · intro hc hw1
    simp [RRG_SetFlow, hc, hw1]
  · intro hc hw1 hw2
    simp [RRG_SetFlow, hc, hw1, hw2]
  · intro hc hw1 hw2
    simp [RRG_SetFlow, hc, hw1, hw2]
  · intro hc
    simp [RRG_GetFlow, hc]
  · intro hc hr
    simp [RRG_GetFlow, hc, hr]
  · intro hc r0 r1 hr
    simp [RRG_GetFlow, hc, hr]
  · intro hc hw
    simp [RRG_SetGas, hc, hw]
  · intro hc hw
    simp [RRG_SetGas, hc, hw]
  · intro hn
    simp [RELAY_Init, hn]
  · intro hn hs
    simp [RELAY_Init, hn, hs]
  · intro hn hs ht
    simp [RELAY_Init, hn, hs, ht]
  · intro hn hs ht hcn
    simp [RELAY_Init, hn, hs, ht, hcn]
  · intro hn hs ht hcn
    simp [RELAY_Init, hn, hs, ht, hcn]
  · intro hc hw
    simp [RELAY_TurnOn, hc, hw]
  · intro hc hw
    simp [RELAY_TurnOn, hc, hw]
  · intro hc hw
    simp [RELAY_TurnOff, hc, hw]
  · intro hc hw
    simp [RELAY_TurnOff, hc, hw]
  · rcases hdl with _ | ⟨_ | c2⟩ <;> rfl
  · rcases rhdl with _ | ⟨_ | c2⟩ <;> rfl
  · intro e he
    simp only [List.mem_cons, List.not_mem_nil, or_false, not_or] at he
    obtain ⟨h1, h2, h3, h4, h5, h6, h7, h8⟩ := he
    simp [RRG_GetLastError, h1, h2, h3, h4, h5, h6, h7, h8]
  · intro e he
    simp only [List.mem_cons, List.not_mem_nil, or_false, not_or] at he
    obtain ⟨h1, h2, h3, h4, h5, h6, h7⟩ := he
    simp [RELAY_GetLastError, h1, h2, h3, h4, h5, h6, h7]

/-- Witness for C3: a SetFlow whose first write fails sets exactly the
write-register code, whose message is the write-register sentence, and a
succeeding SetFlow resets the state to the no-error code and message. -/
theorem lastError_lifecycle_witness :
    (RRG_SetFlow mbW1Fail (some hValid) 2).1 = RRG_ERR ∧
    (RRG_SetFlow mbW1Fail (some hValid) 2).2.1 =
      ERROR_RRG_FAILED_WRITE_REGISTER ∧
    RRG_GetLastError ERROR_RRG_FAILED_WRITE_REGISTER =
      "Error: Failed to write a MODBUS register." ∧
    (RRG_SetFlow mbAllOk (some hValid) 2).1 = RRG_OK ∧
    (RRG_SetFlow mbAllOk (some hValid) 2).2.1 = RRG_OK ∧
    RRG_GetLastError RRG_OK = "No error." := by
  obtain ⟨_, _, hSF, _, _, _, _, _, _, _, hMsg, _⟩ :=
    lastError_lifecycle mbW1Fail cfgA hValid 1 (some hValid) 2 7 0 rcfgA
      rhValid 1 (some rhValid) 0
  obtain ⟨_, _, hSF2, _⟩ :=
    lastError_lifecycle mbAllOk cfgA hValid 1 (some hValid) 2 7 0 rcfgA
      rhValid 1 (some rhValid) 0
  have hfail := hSF.2.2.1 rfl rfl
  have hok := hSF2.2.2.2.2 rfl rfl rfl
  exact ⟨hfail.1, hfail.2, hMsg.2.2.2.2.2.2.2, hok.1, hok.2, hMsg.1⟩

end RRGController
